import Mathlib

/-!
Verification development for the `modal_scrapers` repository
(`src/modal_scrapers/instagram.py` and `src/modal_scrapers/tiktok.py`).

The development shallowly embeds:
* the JavaScript `parseCount` helpers embedded in each scraper's
  `page.evaluate` script, including an exact model of IEEE-754 binary64
  arithmetic (the scripts use JavaScript numbers: `parseFloat`, `*` and
  `Math.floor`, so e.g. `parseCount("32.3K")` is `32299`, not `32300`);
* the DOM extraction logic of each scraper, over an explicit page model
  (one field per DOM selector the script reads);
* the per-job control flow of `scrape_instagram_profile` /
  `scrape_tiktok_profile` (try / except / finally, the success and
  failure webhook POSTs, the re-raise, and the guarded `browser.close()`),
  over an environment recording which awaited step faults.

All numeric code is kept in `ℕ`/`ℤ` (fractions as explicit
numerator/denominator pairs, binary64 values as mantissa/exponent
pairs) so that every concrete evaluation reduces in the kernel.
-/

/-! ## IEEE-754 binary64 model (nonnegative values)

The strings reaching `parseFloat` in both scrapers contain only decimal
digits and `.` (the matched regex groups cannot contain a sign), so all
JavaScript numbers arising in `parseCount` are nonnegative.  A finite
nonnegative binary64 value is represented exactly as `m * 2 ^ e` with
`m : ℕ`, `e : ℤ`.
-/

/-- A nonnegative binary64 value: positive infinity, or `m * 2 ^ e`. -/
inductive JSF where
  | inf : JSF
  | fin : ℕ → ℤ → JSF
deriving DecidableEq

/-- The result of one of the `parseCount` helpers: JavaScript `NaN`,
`Infinity`, or a finite value (always integral, being a `Math.floor`
result; stated as a rational to keep the value type faithful). -/
inductive JSNum where
  | nan : JSNum
  | inf : JSNum
  | val : ℚ → JSNum
deriving DecidableEq

/-- Round `a / b` (with `b ≠ 0`) to the nearest natural, ties to even. -/
def rdiv (a b : ℕ) : ℕ :=
  let q := a / b
  let r := a % b
  if 2 * r < b then q
  else if b < 2 * r then q + 1
  else if q % 2 = 0 then q else q + 1

/-- Fuel-driven base-2 logarithm (structural recursion, so that the
kernel can evaluate it; `log2F n n = Nat.log2 n`). -/
def log2F : ℕ → ℕ → ℕ
  | 0, _ => 0
  | fuel + 1, n => if 2 ≤ n then log2F fuel (n / 2) + 1 else 0

/-- Base-2 logarithm of a natural (`0` for `0`). -/
def natLog2 (n : ℕ) : ℕ := log2F n n

/-- Is `2 ^ x ≤ a / b`?  (By cross-multiplication, in `ℕ`.) -/
def fracLE (x : ℤ) (a b : ℕ) : Bool :=
  if 0 ≤ x then decide (b * 2 ^ x.toNat ≤ a) else decide (b ≤ a * 2 ^ (-x).toNat)

/-- For `a, b ≥ 1`: the integer `e` with `2 ^ e ≤ a / b < 2 ^ (e + 1)`.
The bit-length estimate is off by at most one; the comparisons fix it. -/
def floorLg (a b : ℕ) : ℤ :=
  let est : ℤ := (natLog2 a : ℤ) - (natLog2 b : ℤ)
  if fracLE est a b then (if fracLE (est + 1) a b then est + 1 else est)
  else est - 1

/-- Round the exact fraction `a / b` (with `b ≠ 0`) to the nearest
binary64 value: round to nearest, ties to even, exponent clamped at
`-1022` (subnormals), overflow to `inf` at `2 ^ 1024`.  This is the
value `Number` semantics assigns to the exact mathematical quotient. -/
def roundFrac (a b : ℕ) : JSF :=
  if a = 0 then JSF.fin 0 0
  else
    let e : ℤ := max (floorLg a b) (-1022)
    let s : ℤ := 52 - e
    let m : ℕ :=
      if 0 ≤ s then rdiv (a * 2 ^ s.toNat) b else rdiv a (b * 2 ^ (-s).toNat)
    -- overflow: `m * 2 ^ (-s) ≥ 2 ^ 1024`, i.e. `m ≥ 2 ^ (1024 + s)`; as
    -- `2 ^ log2 m ≤ m < 2 ^ (log2 m + 1)`, that is `1024 + s ≤ log2 m`.
    if m ≠ 0 ∧ 1024 + s ≤ (natLog2 m : ℤ) then JSF.inf else JSF.fin m (-s)

/-- Multiply a binary64 value by `10 ^ t` (the suffix multipliers
`1000`, `1000000`, `1000000000` are all exactly representable), with
IEEE semantics: exact product, then one rounding. -/
def jsMulPow10 : JSF → ℕ → JSF
  | JSF.inf, _ => JSF.inf
  | JSF.fin m e, t =>
    if 0 ≤ e then roundFrac (m * 10 ^ t * 2 ^ e.toNat) 1
    else roundFrac (m * 10 ^ t) (2 ^ (-e).toNat)

/-- JavaScript `Math.floor` on a `parseFloat`-then-multiply result:
`NaN` (modelled as `none`) stays `NaN`, `Infinity` stays `Infinity`,
and a finite nonnegative `m * 2 ^ e` floors to a natural number. -/
def jsFloorF : Option JSF → JSNum
  | none => JSNum.nan
  | some JSF.inf => JSNum.inf
  | some (JSF.fin m e) =>
    JSNum.val ((if 0 ≤ e then m * 2 ^ e.toNat else m / 2 ^ (-e).toNat : ℕ) : ℚ)

/-! ## parseFloat on digit-and-dot strings

After each scraper's own preprocessing, the string handed to
`parseFloat` consists of decimal digits and `.` only, so the relevant
fragment of `parseFloat` is: leading digits, then optionally `.` and
more digits (stopping at a second `.`); `NaN` when no digit is
consumed.  The exact decimal value is then rounded to binary64.
-/

def digitsToNat (cs : List Char) : ℕ :=
  cs.foldl (fun n c => 10 * n + (c.toNat - 48)) 0

/-- Exact decimal value of the consumed token, as a pair `(n, k)`
denoting `n / 10 ^ k`; `none` is `NaN`. -/
def parseFloatDD (cs : List Char) : Option (ℕ × ℕ) :=
  let I := cs.takeWhile Char.isDigit
  let rest := cs.dropWhile Char.isDigit
  match rest with
  | '.' :: r2 =>
    let F := r2.takeWhile Char.isDigit
    if I = [] ∧ F = [] then none
    else some (digitsToNat I * 10 ^ F.length + digitsToNat F, F.length)
  | _ => if I = [] then none else some (digitsToNat I, 0)

/-- JavaScript `parseFloat` on a digit-and-dot string. -/
def parseFloatF (cs : List Char) : Option JSF :=
  (parseFloatDD cs).map fun p => roundFrac p.1 (10 ^ p.2)

/-! ## Regex fragment

Both scrapers match with a regex of the form `([C]+)([KMB]?)` (no `g`
flag, not anchored): the match starts at the first character of class
`C`, group 1 greedily takes the maximal such run, and group 2 takes the
single next character when it is `K`, `M` or `B`.
-/

/-- First maximal run of characters satisfying `p`, together with the
remainder of the list after the run; `none` when no character matches
(i.e. the regex match fails). -/
def findRun (p : Char → Bool) : List Char → Option (List Char × List Char)
  | [] => none
  | c :: cs =>
    if p c then some ((c :: cs).takeWhile p, (c :: cs).dropWhile p)
    else findRun p cs

/-- Group 2 of the regex: the character right after the numeric run,
when it is one of `K`, `M`, `B`. -/
def sufOf : List Char → Option Char
  | [] => none
  | c :: _ => if c = 'K' ∨ c = 'M' ∨ c = 'B' then some c else none

/-- The shared tail of both `parseCount` helpers:
`if (suffix === 'K') return Math.floor(num * 1000); ...`
(`num` is `none` when `parseFloat` returned `NaN`; `NaN * c` is `NaN`.) -/
def applySuffix (num : Option JSF) (suf : Option Char) : JSNum :=
  if suf = some 'K' then jsFloorF (num.map (jsMulPow10 · 3))
  else if suf = some 'M' then jsFloorF (num.map (jsMulPow10 · 6))
  else if suf = some 'B' then jsFloorF (num.map (jsMulPow10 · 9))
  else jsFloorF num

/-! ## The two parseCount variants -/

/-- Character class of the Instagram regex group `([\d,.]+)`. -/
def Instagram.tokChar (c : Char) : Bool := c.isDigit || c = ',' || c = '.'

/-- The `parseCount` helper of `instagram.py` (lines 92-104): falsy
guard, unanchored match of `([\d,.]+)([KMB]?)` on the raw text, removal
of `,` from group 1, `parseFloat`, suffix multiply, floor. -/
def Instagram.parseCount (text : String) : JSNum :=
  if text = "" then JSNum.val 0
  else
    match findRun Instagram.tokChar text.data with
    | none => JSNum.val 0
    | some (g1, rest) =>
      applySuffix (parseFloatF (g1.filter fun c => !(c = ','))) (sufOf rest)

/-- Character class kept by the TikTok cleaning step
`text.replace(/[^\d.KMB]/g, '')` (note: `,` is removed). -/
def TikTok.keepChar (c : Char) : Bool :=
  c.isDigit || c = '.' || c = 'K' || c = 'M' || c = 'B'

/-- Character class of the TikTok regex group `([\d.]+)`. -/
def TikTok.tokChar (c : Char) : Bool := c.isDigit || c = '.'

/-- The `parseCount` helper of `tiktok.py` (lines 92-108): falsy guard,
strip everything outside `[\d.KMB]`, unanchored match of
`([\d.]+)([KMB]?)` on the cleaned text, `parseFloat`, suffix multiply,
floor. -/
def TikTok.parseCount (text : String) : JSNum :=
  if text = "" then JSNum.val 0
  else
    match findRun TikTok.tokChar (text.data.filter TikTok.keepChar) with
    | none => JSNum.val 0
    | some (g1, rest) =>
      applySuffix (parseFloatF g1) (sufOf rest)

/-- Modelled from the spec: the five-step reference Count Normalizer of
spec section 4.3 (no such shared function exists in the source; this
definition follows the spec's words and is used only to compare the
code's `parseCount` helpers against them).  Step 1 strips all
characters except digits, `.`, `,`, `K`, `M`, `B`; step 2 matches a
leading numeric token (digits with optional thousands separators and at
most one decimal point) followed by an optional single suffix letter;
step 3 returns `0` when no numeric token matches; step 4 removes the
separators, parses as a floating-point magnitude (binary64, as the code
does) and multiplies by the suffix multiplier; step 5 floors. -/
def normalizeCount (text : String) : JSNum :=
  let stripped := text.data.filter fun c =>
    c.isDigit || c = '.' || c = ',' || c = 'K' || c = 'M' || c = 'B'
  let I := stripped.takeWhile fun c => c.isDigit || c = ','
  let rest1 := stripped.dropWhile fun c => c.isDigit || c = ','
  let tok : List Char :=
    match rest1 with
    | '.' :: r2 => I ++ '.' :: r2.takeWhile Char.isDigit
    | _ => I
  let rest : List Char :=
    match rest1 with
    | '.' :: r2 => r2.dropWhile Char.isDigit
    | _ => rest1
  if tok.filter Char.isDigit = [] then JSNum.val 0
  else applySuffix (parseFloatF (tok.filter fun c => !(c = ','))) (sufOf rest)

/-! ## DOM extraction models

Each scraper's `page.evaluate` script reads a fixed set of DOM
locations.  A page is modelled by one field per selector the script
reads: `Option String` for `querySelector(...)?.textContent` (`none` =
node absent), `Option String` for element attributes resolved through
optional chaining, `Bool` for presence checks, and lists for
`querySelectorAll` results.
-/

/-- JavaScript `x || d` on the optionally-chained string `x` (both
`undefined` and the empty string are falsy). -/
def jsOr (o : Option String) (d : String) : String :=
  match o with
  | none => d
  | some s => if s = "" then d else s

/-- JavaScript `el?.textContent?.trim() || ''`: empty string when the
node is absent, otherwise the trimmed text (trimming the empty string
keeps it empty, so the `|| ''` collapses). -/
def trimOr (o : Option String) : String :=
  match o with
  | none => ""
  | some t => t.trim

/-- Does `s` contain `pat` as a contiguous substring (JavaScript
`String.includes`)? -/
def listStartsWith : List Char → List Char → Bool
  | _, [] => true
  | [], _ :: _ => false
  | c :: cs, d :: ds => c = d && listStartsWith cs ds

def listHasSub (s pat : List Char) : Bool :=
  match s with
  | [] => listStartsWith [] pat
  | _ :: tl => listStartsWith s pat || listHasSub tl pat

/-- The DOM locations read by the Instagram `page.evaluate` script. -/
structure IGPage where
  /-- `header section ul li` text contents (one entry per `li`). -/
  statsLis : List String
  /-- `header h2` text, when present. -/
  headerH2 : Option String
  /-- `header section div span` text (the bio node), when present. -/
  bioSpan : Option String
  /-- presence of `svg[aria-label="Verified"]`. -/
  verifiedSvg : Bool
  /-- first `h2` in the document, when present (used for the
  `includes('Private')` check). -/
  docH2 : Option String
  /-- `header img` `src`, when the node is present. -/
  headerImg : Option String
  /-- `header section div div span` text, when present. -/
  fullNameSpan : Option String

/-- The record built by the Instagram script. -/
structure IGRecord where
  username : String
  fullName : String
  bio : String
  followers : JSNum
  following : JSNum
  posts : JSNum
  profilePicUrl : String
  isVerified : Bool
  isPrivate : Bool
  scrapedAt : String

/-- The Instagram `page.evaluate` body (`instagram.py` lines 89-150):
each field read is independently defaulted, counts go through
`parseCount` with the `stats[i] || '0'` fallback. -/
def Instagram.extract (page : IGPage) (now : String) : IGRecord :=
  let stats := page.statsLis.map String.trim
  { username := trimOr page.headerH2
    fullName := trimOr page.fullNameSpan
    bio := trimOr page.bioSpan
    followers := Instagram.parseCount (jsOr (stats.get? 1) "0")
    following := Instagram.parseCount (jsOr (stats.get? 2) "0")
    posts := Instagram.parseCount (jsOr (stats.get? 0) "0")
    profilePicUrl := page.headerImg.getD ""
    isVerified := page.verifiedSvg
    isPrivate :=
      match page.docH2 with
      | none => false
      | some t => listHasSub t.data "Private".data
    scrapedAt := now }

/-- A stat element on the TikTok page: its `title` attribute (when
set) and its text content. -/
structure TTStat where
  title : Option String
  text : String

/-- One `[data-e2e="user-post-item"]` element: the `href` of its first
anchor (when an anchor exists) and the text of its
`[data-e2e="video-views"]` child (when present). -/
structure TTItem where
  href : Option String
  viewsText : Option String

/-- The DOM locations read by the TikTok `page.evaluate` script. -/
structure TTPage where
  /-- `[data-e2e="user-title"]` text, when present. -/
  userTitle : Option String
  /-- `[data-e2e="user-bio"]` text, when present. -/
  userBio : Option String
  /-- `[data-e2e="user-avatar"] img` `src`, when present. -/
  avatarImg : Option String
  /-- `[title*="Followers"], [data-e2e="followers-count"]`, when present. -/
  followersEl : Option TTStat
  /-- `[title*="Following"], [data-e2e="following-count"]`, when present. -/
  followingEl : Option TTStat
  /-- `[title*="Likes"], [data-e2e="likes-count"]`, when present. -/
  likesEl : Option TTStat
  /-- presence of `[data-e2e="user-verified-badge"]`. -/
  verifiedBadge : Bool
  /-- all `[data-e2e="user-post-item"]` elements, in document order. -/
  postItems : List TTItem

/-- One entry of `recentVideos`. -/
structure TTVideo where
  link : String
  views : JSNum

/-- The record built by the TikTok script. -/
structure TTRecord where
  username : String
  bio : String
  avatar : String
  followers : JSNum
  following : JSNum
  likes : JSNum
  videos : ℕ
  verified : Bool
  recentVideos : List TTVideo
  scrapedAt : String

/-- `el?.getAttribute('title') || el?.textContent || '0'`. -/
def statText (el : Option TTStat) : String :=
  match el with
  | none => "0"
  | some e =>
    match e.title with
    | some t => if t = "" then (if e.text = "" then "0" else e.text) else t
    | none => if e.text = "" then "0" else e.text

/-- The TikTok `page.evaluate` body (`tiktok.py` lines 89-168):
stats come from the `title`-attribute-or-text fallback chain, `videos`
counts the post-item elements, and `recentVideos` maps the first 12
post items to `{link, views}` with per-item defaults. -/
def TikTok.extract (page : TTPage) (now : String) : TTRecord :=
  { username := trimOr page.userTitle
    bio := trimOr page.userBio
    avatar := page.avatarImg.getD ""
    followers := TikTok.parseCount (statText page.followersEl)
    following := TikTok.parseCount (statText page.followingEl)
    likes := TikTok.parseCount (statText page.likesEl)
    videos := page.postItems.length
    verified := page.verifiedBadge
    recentVideos := (page.postItems.take 12).map fun it =>
      { link := it.href.getD ""
        views := TikTok.parseCount (jsOr it.viewsText "0") }
    scrapedAt := now }

/-! ## Job control flow

`scrape_instagram_profile` / `scrape_tiktok_profile` share this shape
(`instagram.py` lines 55-194, `tiktok.py` lines 55-213):

```
async with async_playwright() as p:
    browser = None
    try:
        browser = await p.chromium.launch(...)
        context = await browser.new_context(...)
        page = await context.new_page()
        await page.goto(url, ...)
        await page.wait_for_selector(..., ...)
        data = await page.evaluate(...)
        ... client.post(success payload) ...
        return data
    except Exception as e:
        try: ... client.post(failure payload with str(e)) ...
        except Exception: pass  # swallowed
        raise e
    finally:
        if browser: await browser.close()
```

An `Env` says, for each awaited step, whether it succeeds or raises
(and with which message, `str(e)`); `runJob` mirrors the control flow
and returns the invoker-visible outcome together with the chronological
list of observable effects (each webhook `POST` attempt with its
payload, and the `browser.close()` call).
-/

/-- Fault model of one job execution: for each step inside the `try`
block, `none`/`Except.ok` means the step succeeds and `some msg` /
`Except.error msg` means it raises an exception whose `str` is `msg`.
`failurePost` is the failure-webhook POST inside the inner
`try/except`; its fault is swallowed by the code. -/
structure Env (α : Type) where
  launch : Option String
  newContext : Option String
  newPage : Option String
  goto : Option String
  waitSelector : Option String
  evaluate : Except String α
  successPost : Option String
  failurePost : Option String

/-- A webhook payload: the discriminated union sent by the scrapers. -/
inductive Payload (α : Type) where
  | success (jobId platform : String) (data : α)
  | failed (jobId platform errMsg : String)

/-- An observable effect of a job execution: a webhook POST attempt
(with its payload) or the `browser.close()` call in `finally`. -/
inductive Event (α : Type) where
  | post (p : Payload α)
  | browserClose

/-- The steps from `browser.new_context` to `page.evaluate`: the first
raising step short-circuits the rest. -/
def pipelineResult {α : Type} (env : Env α) : Except String α :=
  match env.newContext with
  | some m => Except.error m
  | none =>
    match env.newPage with
    | some m => Except.error m
    | none =>
      match env.goto with
      | some m => Except.error m
      | none =>
        match env.waitSelector with
        | some m => Except.error m
        | none => env.evaluate

/-- One job execution.  Mirrors the try/except/finally of the source:
any exception from the `try` block (including one raised by the
success-webhook POST) reaches the `except` clause, which attempts one
failure POST carrying `str(e)` (its own fault is swallowed; note that
`env.failurePost` is consequently never read) and re-raises `e`; the
`finally` clause closes the browser only when `launch` succeeded. -/
def runJob {α : Type} (env : Env α) (jobId platform : String) :
    Except String α × List (Event α) :=
  match env.launch with
  | some m =>
    (Except.error m, [Event.post (Payload.failed jobId platform m)])
  | none =>
    match pipelineResult env with
    | Except.error m =>
      (Except.error m,
       [Event.post (Payload.failed jobId platform m), Event.browserClose])
    | Except.ok d =>
      match env.successPost with
      | none =>
        (Except.ok d,
         [Event.post (Payload.success jobId platform d), Event.browserClose])
      | some m =>
        (Except.error m,
         [Event.post (Payload.success jobId platform d),
          Event.post (Payload.failed jobId platform m), Event.browserClose])

/-- `scrape_instagram_profile` (`instagram.py` lines 34-194), as a
function of its fault environment and job id. -/
def scrape_instagram_profile (env : Env IGRecord) (jobId : String) :
    Except String IGRecord × List (Event IGRecord) :=
  runJob env jobId "Instagram"

/-- `scrape_tiktok_profile` (`tiktok.py` lines 34-213), as a function
of its fault environment and job id. -/
def scrape_tiktok_profile (env : Env TTRecord) (jobId : String) :
    Except String TTRecord × List (Event TTRecord) :=
  runJob env jobId "TikTok"

/-- Number of webhook POST attempts in an effect list. -/
def postCount {α : Type} (evs : List (Event α)) : ℕ :=
  evs.countP fun e => match e with | Event.post _ => true | Event.browserClose => false

/-- Number of `browser.close()` calls in an effect list. -/
def closeCount {α : Type} (evs : List (Event α)) : ℕ :=
  evs.countP fun e => match e with | Event.post _ => false | Event.browserClose => true

/-- Does an `Except` hold a value? -/
def isOkE {α : Type} : Except String α → Bool
  | Except.ok _ => true
  | Except.error _ => false

/-- The error the `except` clause observes (`str(e)`), when the job
fails: the first raising step's message. -/
def originalError {α : Type} (env : Env α) : Option String :=
  match env.launch with
  | some m => some m
  | none =>
    match pipelineResult env with
    | Except.error m => some m
    | Except.ok _ => env.successPost

/-- An all-steps-succeed environment delivering `d` from extraction. -/
def mkOkEnv {α : Type} (d : α) : Env α :=
  { launch := none, newContext := none, newPage := none, goto := none,
    waitSelector := none, evaluate := Except.ok d,
    successPost := none, failurePost := none }

/-! ## General facts about the job control flow -/

theorem runJob_postCount {α : Type} (env : Env α) (j p : String) :
    postCount (runJob env j p).2 =
      if env.launch = none ∧ isOkE (pipelineResult env) = true ∧ env.successPost ≠ none
      then 2 else 1 := by
  rcases hl : env.launch with _ | m
  all_goals rcases hp : pipelineResult env with m2 | d
  all_goals rcases hs : env.successPost with _ | m3
  all_goals simp [runJob, hl, hp, hs, postCount, isOkE, List.countP_cons, List.countP_nil]

theorem runJob_closeCount {α : Type} (env : Env α) (j p : String) :
    closeCount (runJob env j p).2 = if env.launch = none then 1 else 0 := by
  rcases hl : env.launch with _ | m
  all_goals rcases hp : pipelineResult env with m2 | d
  all_goals rcases hs : env.successPost with _ | m3
  all_goals simp [runJob, hl, hp, hs, closeCount, List.countP_cons, List.countP_nil]

theorem runJob_fail {α : Type} (env : Env α) (j p m : String)
    (h : originalError env = some m) :
    (runJob env j p).1 = Except.error m ∧
      Event.post (Payload.failed j p m) ∈ (runJob env j p).2 := by
  unfold originalError at h
  rcases hl : env.launch with _ | m0
  · rw [hl] at h
    rcases hp : pipelineResult env with m2 | d
    · rw [hp] at h
      injection h with h
      subst h
      simp [runJob, hl, hp]
    · rw [hp] at h
      rcases hs : env.successPost with _ | m3
      · rw [hs] at h
        cases h
      · rw [hs] at h
        injection h with h
        subst h
        simp [runJob, hl, hp, hs]
  · rw [hl] at h
    injection h with h
    subst h
    simp [runJob, hl]

theorem runJob_failurePost_irrelevant {α : Type} (env : Env α) (j p : String)
    (x : Option String) :
    runJob { env with failurePost := x } j p = runJob env j p := rfl

theorem runJob_onOk {α : Type} (env : Env α) (j p : String) (d : α)
    (hl : env.launch = none) (hp : pipelineResult env = Except.ok d) :
    (runJob env j p).1 =
      (match env.successPost with
       | none => Except.ok d
       | some m => Except.error m) := by
  rcases hs : env.successPost with _ | m3
  all_goals simp [runJob, hl, hp, hs]

/-! ## Concrete fixtures used by counterexamples and witnesses -/

def rIG0 : IGRecord :=
  { username := "nike", fullName := "Nike", bio := "Just Do It",
    followers := JSNum.val 302000000, following := JSNum.val 165,
    posts := JSNum.val 100, profilePicUrl := "https://cdn.example/nike.jpg",
    isVerified := true, isPrivate := false, scrapedAt := "2026-01-01T00:00:00Z" }

def rTT0 : TTRecord :=
  { username := "charli", bio := "hi", avatar := "https://cdn.example/c.jpg",
    followers := JSNum.val 155000000, following := JSNum.val 1200,
    likes := JSNum.val 11000000000, videos := 2, verified := true,
    recentVideos := [], scrapedAt := "2026-01-01T00:00:00Z" }

/-- All steps succeed except the success-webhook POST, which raises. -/
def envSuccessPostFault : Env IGRecord :=
  { mkOkEnv rIG0 with successPost := some "ReadTimeout: timed out" }

/-- C1: the claim states that exactly one webhook POST is made per job
execution regardless of outcome, and in particular that a fault during
the success-webhook POST never causes a second webhook call.  In the
code the success POST sits inside the `try` block, so its exception
reaches the generic `except` clause, which then attempts a failure
POST: two webhook calls in one execution. -/
theorem claim_C1_counterexample :
    postCount (scrape_instagram_profile envSuccessPostFault "job-1").2 = 2 ∧
      (scrape_instagram_profile envSuccessPostFault "job-1").2 =
        [Event.post (Payload.success "job-1" "Instagram" rIG0),
         Event.post (Payload.failed "job-1" "Instagram" "ReadTimeout: timed out"),
         Event.browserClose] :=
  ⟨rfl, rfl⟩

/-- C1 (amended): every job execution makes exactly one webhook POST,
except when the success-webhook POST itself raises, in which case a
second, failure webhook POST is also attempted (two in total).  Stated
for both scrape functions over every fault environment. -/
theorem claim_C1_amended :
    ∀ (envI : Env IGRecord) (envT : Env TTRecord) (j : String),
      postCount (scrape_instagram_profile envI j).2 =
        (if envI.launch = none ∧ isOkE (pipelineResult envI) = true ∧
            envI.successPost ≠ none then 2 else 1) ∧
      postCount (scrape_tiktok_profile envT j).2 =
        (if envT.launch = none ∧ isOkE (pipelineResult envT) = true ∧
            envT.successPost ≠ none then 2 else 1) := by
  intro envI envT j
  exact ⟨runJob_postCount envI j "Instagram", runJob_postCount envT j "TikTok"⟩

/-- C3: on every exit path the browser is released exactly once by the
`finally` clause when it was launched, and the guarded release
(`if browser:`) is a safe no-op when launch itself failed: the number
of `browser.close()` calls is one when `launch` succeeded and zero
otherwise, whatever else faults.  Stated for both scrape functions. -/
theorem claim_C3 :
    ∀ (envI : Env IGRecord) (envT : Env TTRecord) (j : String),
      closeCount (scrape_instagram_profile envI j).2 =
        (if envI.launch = none then 1 else 0) ∧
      closeCount (scrape_tiktok_profile envT j).2 =
        (if envT.launch = none then 1 else 0) := by
  intro envI envT j
  exact ⟨runJob_closeCount envI j "Instagram", runJob_closeCount envT j "TikTok"⟩

/-- C4: whenever a job fails with error `e`, the failure payload
carries `str(e)` verbatim together with the job id and platform, the
original error is re-raised to the invoker, and a fault of the
failure-webhook POST itself is swallowed: the whole execution result is
independent of `failurePost`, so the invoker still observes `e`. -/
theorem claim_C4 :
    ∀ (envI : Env IGRecord) (envT : Env TTRecord) (j mI mT : String) (x : Option String),
      (originalError envI = some mI →
        (scrape_instagram_profile envI j).1 = Except.error mI ∧
        Event.post (Payload.failed j "Instagram" mI) ∈ (scrape_instagram_profile envI j).2 ∧
        scrape_instagram_profile { envI with failurePost := x } j =
          scrape_instagram_profile envI j) ∧
      (originalError envT = some mT →
        (scrape_tiktok_profile envT j).1 = Except.error mT ∧
        Event.post (Payload.failed j "TikTok" mT) ∈ (scrape_tiktok_profile envT j).2 ∧
        scrape_tiktok_profile { envT with failurePost := x } j =
          scrape_tiktok_profile envT j) := by
  intro envI envT j mI mT x
  constructor
  · intro h
    obtain ⟨h1, h2⟩ := runJob_fail envI j "Instagram" mI h
    exact ⟨h1, h2, runJob_failurePost_irrelevant envI j "Instagram" x⟩
  · intro h
    obtain ⟨h1, h2⟩ := runJob_fail envT j "TikTok" mT h
    exact ⟨h1, h2, runJob_failurePost_irrelevant envT j "TikTok" x⟩

/-- Navigation times out on the Instagram job (all later steps moot). -/
def envNavTimeout : Env IGRecord :=
  { mkOkEnv rIG0 with goto := some "Timeout 30000ms exceeded" }

/-- The readiness selector times out on the TikTok job. -/
def envSelTimeout : Env TTRecord :=
  { mkOkEnv rTT0 with waitSelector := some "Timeout 15000ms exceeded" }

/-- C4 witness: the theorem applied to a navigation-timeout Instagram
job and a readiness-timeout TikTok job, with a faulting failure POST. -/
theorem claim_C4_witness :
    ((scrape_instagram_profile envNavTimeout "job-4").1 =
        Except.error "Timeout 30000ms exceeded" ∧
      Event.post (Payload.failed "job-4" "Instagram" "Timeout 30000ms exceeded") ∈
        (scrape_instagram_profile envNavTimeout "job-4").2 ∧
      scrape_instagram_profile { envNavTimeout with failurePost := some "503" } "job-4" =
        scrape_instagram_profile envNavTimeout "job-4") ∧
    ((scrape_tiktok_profile envSelTimeout "job-4").1 =
        Except.error "Timeout 15000ms exceeded" ∧
      Event.post (Payload.failed "job-4" "TikTok" "Timeout 15000ms exceeded") ∈
        (scrape_tiktok_profile envSelTimeout "job-4").2 ∧
      scrape_tiktok_profile { envSelTimeout with failurePost := some "503" } "job-4" =
        scrape_tiktok_profile envSelTimeout "job-4") :=
  ⟨(claim_C4 envNavTimeout envSelTimeout "job-4" "Timeout 30000ms exceeded"
      "Timeout 15000ms exceeded" (some "503")).1 rfl,
   (claim_C4 envNavTimeout envSelTimeout "job-4" "Timeout 30000ms exceeded"
      "Timeout 15000ms exceeded" (some "503")).2 rfl⟩

/-- Extraction succeeded but the success-webhook POST raises (TikTok). -/
def envSuccessPostFaultTT : Env TTRecord :=
  { mkOkEnv rTT0 with successPost := some "ConnectError: refused" }

/-- Extraction succeeded but the success-webhook POST raises (second
Instagram fixture, for C5). -/
def envSuccessPostFaultIG : Env IGRecord :=
  { mkOkEnv rIG0 with successPost := some "ConnectError: refused" }

/-- C5: the claim states that when only the success-path webhook
delivery fails, the invocation still returns the extracted record.  In
the code the success POST's exception reaches the `except` clause and
is re-raised, so the invoker observes the webhook error instead of the
record. -/
theorem claim_C5_counterexample :
    (scrape_instagram_profile envSuccessPostFaultIG "job-5").1 =
        Except.error "ConnectError: refused" ∧
      (scrape_tiktok_profile envSuccessPostFaultTT "job-5").1 =
        Except.error "ConnectError: refused" :=
  ⟨rfl, rfl⟩

/-- C5 (amended): when extraction succeeds, the invocation returns the
extracted record exactly when the success-webhook POST also succeeds;
when that POST raises, the job fails and the invoker observes the
webhook error instead of the record. -/
theorem claim_C5_amended :
    ∀ (envI : Env IGRecord) (envT : Env TTRecord) (j : String)
      (dI : IGRecord) (dT : TTRecord),
      (envI.launch = none → pipelineResult envI = Except.ok dI →
        (scrape_instagram_profile envI j).1 =
          (match envI.successPost with
           | none => Except.ok dI
           | some m => Except.error m)) ∧
      (envT.launch = none → pipelineResult envT = Except.ok dT →
        (scrape_tiktok_profile envT j).1 =
          (match envT.successPost with
           | none => Except.ok dT
           | some m => Except.error m)) := by
  intro envI envT j dI dT
  exact ⟨fun hl hp => runJob_onOk envI j "Instagram" dI hl hp,
         fun hl hp => runJob_onOk envT j "TikTok" dT hl hp⟩

/-- C5 (amended) witness: the amended theorem applied to two all-ok
environments and the two success-POST-fault fixtures. -/
theorem claim_C5_witness :
    ((scrape_instagram_profile (mkOkEnv rIG0) "job-5w").1 = Except.ok rIG0 ∧
      (scrape_tiktok_profile (mkOkEnv rTT0) "job-5w").1 = Except.ok rTT0) ∧
    ((scrape_instagram_profile envSuccessPostFaultIG "job-5w").1 =
        Except.error "ConnectError: refused" ∧
      (scrape_tiktok_profile envSuccessPostFaultTT "job-5w").1 =
        Except.error "ConnectError: refused") :=
  ⟨⟨(claim_C5_amended (mkOkEnv rIG0) (mkOkEnv rTT0) "job-5w" rIG0 rTT0).1 rfl rfl,
    (claim_C5_amended (mkOkEnv rIG0) (mkOkEnv rTT0) "job-5w" rIG0 rTT0).2 rfl rfl⟩,
   ⟨(claim_C5_amended envSuccessPostFaultIG envSuccessPostFaultTT "job-5w" rIG0 rTT0).1 rfl rfl,
    (claim_C5_amended envSuccessPostFaultIG envSuccessPostFaultTT "job-5w" rIG0 rTT0).2 rfl rfl⟩⟩

/-- C2: the claim states that both `parseCount` helpers compute the
spec's five-step reference algorithm on every input.  They do not: the
reference matches a LEADING numeric token of the stripped text (and
strips before matching), while both helpers match the first numeric run
anywhere.  On `"K5"` the reference finds no leading numeric token and
returns `0`, but both helpers match the `5` and return `5`. -/
theorem claim_C2_counterexample :
    Instagram.parseCount "K5" = JSNum.val 5 ∧
      TikTok.parseCount "K5" = JSNum.val 5 ∧
      normalizeCount "K5" = JSNum.val 0 ∧
      Instagram.parseCount "K5" ≠ normalizeCount "K5" ∧
      TikTok.parseCount "K5" ≠ normalizeCount "K5" := by
  decide

set_option maxRecDepth 8000 in
/-- C2 (amended): on the spec's documented example inputs both
`parseCount` helpers return the reference values — `"12.3K" → 12300`,
`"1,234" → 1234`, `"2M" → 2000000`, `"1B" → 1000000000`, `"" → 0`,
`"garbage" → 0` — but on general input they can diverge from the
five-step reference algorithm (e.g. on `"K5"`), since they match the
first numeric run anywhere instead of a leading token. -/
theorem claim_C2_amended :
    Instagram.parseCount "12.3K" = JSNum.val 12300 ∧
      TikTok.parseCount "12.3K" = JSNum.val 12300 ∧
      Instagram.parseCount "1,234" = JSNum.val 1234 ∧
      TikTok.parseCount "1,234" = JSNum.val 1234 ∧
      Instagram.parseCount "2M" = JSNum.val 2000000 ∧
      TikTok.parseCount "2M" = JSNum.val 2000000 ∧
      Instagram.parseCount "1B" = JSNum.val 1000000000 ∧
      TikTok.parseCount "1B" = JSNum.val 1000000000 ∧
      Instagram.parseCount "" = JSNum.val 0 ∧
      TikTok.parseCount "" = JSNum.val 0 ∧
      Instagram.parseCount "garbage" = JSNum.val 0 ∧
      TikTok.parseCount "garbage" = JSNum.val 0 ∧
      normalizeCount "12.3K" = JSNum.val 12300 ∧
      normalizeCount "1,234" = JSNum.val 1234 ∧
      normalizeCount "2M" = JSNum.val 2000000 ∧
      normalizeCount "1B" = JSNum.val 1000000000 ∧
      normalizeCount "" = JSNum.val 0 ∧
      normalizeCount "garbage" = JSNum.val 0 := by
  decide

/-! ## Shape of parseCount results -/

theorem jsFloorF_shape (o : Option JSF) :
    jsFloorF o = JSNum.nan ∨ jsFloorF o = JSNum.inf ∨
      ∃ n : ℕ, jsFloorF o = JSNum.val n := by
  rcases o with _ | f
  · left; rfl
  · rcases f with _ | ⟨m, e⟩
    · right; left; rfl
    · right; right; exact ⟨_, rfl⟩

theorem applySuffix_shape (num : Option JSF) (suf : Option Char) :
    applySuffix num suf = JSNum.nan ∨ applySuffix num suf = JSNum.inf ∨
      ∃ n : ℕ, applySuffix num suf = JSNum.val n := by
  unfold applySuffix
  split_ifs
  all_goals apply jsFloorF_shape

/-- C6: the claim states the helpers return a non-negative integer for
every input string, never NaN.  On the input `"."` the matched group is
`"."`, `parseFloat(".")` is `NaN`, and `Math.floor(NaN)` is `NaN`, so
both helpers return `NaN`. -/
theorem claim_C6_counterexample :
    Instagram.parseCount "." = JSNum.nan ∧ TikTok.parseCount "." = JSNum.nan := by
  decide

/-- C6 (amended): for every input string each helper returns a
non-negative integer, or JavaScript `NaN` (reachable, e.g. on `"."`,
whenever the matched numeric token contains no digit), or `Infinity`
(for astronomically large digit strings); never a negative or
fractional value. -/
theorem claim_C6_amended :
    ∀ s : String,
      (Instagram.parseCount s = JSNum.nan ∨ Instagram.parseCount s = JSNum.inf ∨
        ∃ n : ℕ, Instagram.parseCount s = JSNum.val n) ∧
      (TikTok.parseCount s = JSNum.nan ∨ TikTok.parseCount s = JSNum.inf ∨
        ∃ n : ℕ, TikTok.parseCount s = JSNum.val n) := by
  intro s
  constructor
  · unfold Instagram.parseCount
    split
    · right; right; exact ⟨0, by norm_num⟩
    · split
      · right; right; exact ⟨0, by norm_num⟩
      · apply applySuffix_shape
  · unfold TikTok.parseCount
    split
    · right; right; exact ⟨0, by norm_num⟩
    · split
      · right; right; exact ⟨0, by norm_num⟩
      · apply applySuffix_shape

/-! ## Agreement of the two parseCount variants on clean input -/

theorem takeWhile_congrL (p q : Char → Bool) :
    ∀ l : List Char, (∀ c ∈ l, p c = q c) → l.takeWhile p = l.takeWhile q := by
  intro l
  induction l with
  | nil => intro _; rfl
  | cons a tl ih =>
    intro h
    have ha := h a (List.mem_cons_self a tl)
    simp only [List.takeWhile_cons, ha]
    split
    · rw [ih fun c hc => h c (List.mem_cons_of_mem a hc)]
    · rfl

theorem dropWhile_congrL (p q : Char → Bool) :
    ∀ l : List Char, (∀ c ∈ l, p c = q c) → l.dropWhile p = l.dropWhile q := by
  intro l
  induction l with
  | nil => intro _; rfl
  | cons a tl ih =>
    intro h
    have ha := h a (List.mem_cons_self a tl)
    simp only [List.dropWhile_cons, ha]
    split
    · exact ih fun c hc => h c (List.mem_cons_of_mem a hc)
    · rfl

theorem findRun_congr (p q : Char → Bool) :
    ∀ l : List Char, (∀ c ∈ l, p c = q c) → findRun p l = findRun q l := by
  intro l
  induction l with
  | nil => intro _; rfl
  | cons a tl ih =>
    intro h
    have ha := h a (List.mem_cons_self a tl)
    have htl : ∀ c ∈ tl, p c = q c := fun c hc => h c (List.mem_cons_of_mem a hc)
    simp only [findRun, ha]
    split
    · rw [takeWhile_congrL p q (a :: tl) h, dropWhile_congrL p q (a :: tl) h]
    · exact ih htl

theorem memTakeWhile (p : Char → Bool) :
    ∀ (l : List Char) (c : Char), c ∈ l.takeWhile p → c ∈ l := by
  intro l
  induction l with
  | nil => intro c hc; simp at hc
  | cons a tl ih =>
    intro c hc
    rw [List.takeWhile_cons] at hc
    split at hc
    · rcases List.mem_cons.mp hc with h | h
      · exact h ▸ List.mem_cons_self a tl
      · exact List.mem_cons_of_mem a (ih c h)
    · simp at hc

theorem findRun_subset (p : Char → Bool) :
    ∀ (l g1 rest : List Char), findRun p l = some (g1, rest) → ∀ c ∈ g1, c ∈ l := by
  intro l
  induction l with
  | nil => intro g1 rest h; cases h
  | cons a tl ih =>
    intro g1 rest h c hc
    simp only [findRun] at h
    split at h
    · obtain ⟨h1, _⟩ := Prod.mk.injEq .. ▸ Option.some.injEq .. ▸ h
      exact memTakeWhile p (a :: tl) c (h1 ▸ hc)
    · exact List.mem_cons_of_mem a (ih g1 rest h c hc)

/-- C7: the claim states the two platform extractors share a single
normalizer: the Instagram and TikTok `parseCount` agree on all inputs.
They are two different inline functions: the TikTok variant first
strips every character outside `[\d.KMB]` while the Instagram variant
matches the raw text, so on `"1 234"` Instagram matches the run `"1"`
(stopping at the space) and returns `1` while TikTok removes the space
and returns `1234`. -/
theorem claim_C7_counterexample :
    Instagram.parseCount "1 234" = JSNum.val 1 ∧
      TikTok.parseCount "1 234" = JSNum.val 1234 ∧
      Instagram.parseCount "1 234" ≠ TikTok.parseCount "1 234" := by
  decide

/-- C7 (amended): the two `parseCount` helpers are distinct inline
functions that can disagree (e.g. on `"1 234"`), but they agree on
every input consisting solely of characters the TikTok cleaning step
keeps (digits, `.`, `K`, `M`, `B`) — in particular on every value the
documented count formats produce. -/
theorem claim_C7_amended :
    ∀ s : String, (∀ c ∈ s.data, TikTok.keepChar c = true) →
      Instagram.parseCount s = TikTok.parseCount s := by
  intro s h
  unfold Instagram.parseCount TikTok.parseCount
  split
  · rfl
  · have hfilter : s.data.filter TikTok.keepChar = s.data :=
      List.filter_eq_self.mpr h
    have hnocomma : ∀ c ∈ s.data, ¬(c = ',') := by
      intro c hc hcomma
      have := h c hc
      rw [hcomma] at this
      exact absurd this (by decide)
    have htok : ∀ c ∈ s.data, Instagram.tokChar c = TikTok.tokChar c := by
      intro c hc
      unfold Instagram.tokChar TikTok.tokChar
      rw [decide_eq_false (hnocomma c hc), Bool.or_false]
    rw [hfilter, findRun_congr Instagram.tokChar TikTok.tokChar s.data htok]
    rcases hfr : findRun TikTok.tokChar s.data with _ | ⟨g1, rest⟩
    · rfl
    · have hg1 : g1.filter (fun c => !(c = ',')) = g1 := by
        apply List.filter_eq_self.mpr
        intro c hc
        have : c ∈ s.data := findRun_subset TikTok.tokChar s.data g1 rest hfr c hc
        simpa using hnocomma c this
      show applySuffix (parseFloatF (g1.filter fun c => !(c = ','))) (sufOf rest) =
        applySuffix (parseFloatF g1) (sufOf rest)
      rw [hg1]

/-- C7 (amended) witness: the amended theorem applied at `"12.3K"`. -/
theorem claim_C7_witness :
    (∀ c ∈ "12.3K".data, TikTok.keepChar c = true) ∧
      Instagram.parseCount "12.3K" = TikTok.parseCount "12.3K" :=
  ⟨by decide, claim_C7_amended "12.3K" (by decide)⟩

/-- C8: every field read by an extractor is independently defaulted
when its DOM node is absent (empty string for text and URL fields,
`false` for the private flag, `0` for counts), so no single missing
node fails extraction; in particular extraction is total and an all-ok
job returns the extracted record whatever nodes are missing. -/
theorem claim_C8 :
    ∀ (p : IGPage) (t : TTPage) (now j : String),
      (p.bioSpan = none → (Instagram.extract p now).bio = "") ∧
      (p.headerImg = none → (Instagram.extract p now).profilePicUrl = "") ∧
      (p.headerH2 = none → (Instagram.extract p now).username = "") ∧
      (p.fullNameSpan = none → (Instagram.extract p now).fullName = "") ∧
      (p.docH2 = none → (Instagram.extract p now).isPrivate = false) ∧
      (p.statsLis = [] →
        (Instagram.extract p now).followers = JSNum.val 0 ∧
        (Instagram.extract p now).following = JSNum.val 0 ∧
        (Instagram.extract p now).posts = JSNum.val 0) ∧
      (t.userBio = none → (TikTok.extract t now).bio = "") ∧
      (t.avatarImg = none → (TikTok.extract t now).avatar = "") ∧
      (t.userTitle = none → (TikTok.extract t now).username = "") ∧
      (t.followersEl = none → (TikTok.extract t now).followers = JSNum.val 0) ∧
      (t.followingEl = none → (TikTok.extract t now).following = JSNum.val 0) ∧
      (t.likesEl = none → (TikTok.extract t now).likes = JSNum.val 0) ∧
      (scrape_instagram_profile (mkOkEnv (Instagram.extract p now)) j).1 =
        Except.ok (Instagram.extract p now) ∧
      (scrape_tiktok_profile (mkOkEnv (TikTok.extract t now)) j).1 =
        Except.ok (TikTok.extract t now) := by
  intro p t now j
  refine ⟨?_, ?_, ?_, ?_, ?_, ?_, ?_, ?_, ?_, ?_, ?_, ?_, rfl, rfl⟩
  · intro h; simp [Instagram.extract, trimOr, h]
  · intro h; simp [Instagram.extract, h]
  · intro h; simp [Instagram.extract, trimOr, h]
  · intro h; simp [Instagram.extract, trimOr, h]
  · intro h; simp [Instagram.extract, h]
  · intro h
    refine ⟨?_, ?_, ?_⟩ <;> (simp [Instagram.extract, h, jsOr]; decide)
  · intro h; simp [TikTok.extract, trimOr, h]
  · intro h; simp [TikTok.extract, h]
  · intro h; simp [TikTok.extract, trimOr, h]
  · intro h; simp [TikTok.extract, statText, h]; decide
  · intro h; simp [TikTok.extract, statText, h]; decide
  · intro h; simp [TikTok.extract, statText, h]; decide

/-- An Instagram page fixture whose bio and avatar nodes are missing. -/
def pIGMissing : IGPage :=
  { statsLis := ["100 posts", "10M followers", "50 following"],
    headerH2 := some "nike", bioSpan := none, verifiedSvg := true,
    docH2 := some "nike", headerImg := none, fullNameSpan := some "Nike" }

/-- A TikTok page fixture whose bio and avatar nodes are missing. -/
def tTTMissing : TTPage :=
  { userTitle := some "charli", userBio := none, avatarImg := none,
    followersEl := some ⟨some "6.7M", "6.7M"⟩,
    followingEl := some ⟨none, "1,200"⟩,
    likesEl := some ⟨some "11B", ""⟩, verifiedBadge := true,
    postItems := [⟨none, none⟩, ⟨some "https://www.tiktok.com/v/1", some "1.2M"⟩] }

/-- C8 witness: on page fixtures missing the bio and avatar nodes, the
records carry `bio = ""` and empty avatar URL and the all-ok jobs still
return the records. -/
theorem claim_C8_witness :
    (Instagram.extract pIGMissing "t8").bio = "" ∧
      (Instagram.extract pIGMissing "t8").profilePicUrl = "" ∧
      (TikTok.extract tTTMissing "t8").bio = "" ∧
      (TikTok.extract tTTMissing "t8").avatar = "" ∧
      (scrape_instagram_profile (mkOkEnv (Instagram.extract pIGMissing "t8")) "job-8").1 =
        Except.ok (Instagram.extract pIGMissing "t8") ∧
      (scrape_tiktok_profile (mkOkEnv (TikTok.extract tTTMissing "t8")) "job-8").1 =
        Except.ok (TikTok.extract tTTMissing "t8") := by
  obtain ⟨h1, h2, _, _, _, _, h7, h8, _, _, _, _, h13, h14⟩ :=
    claim_C8 pIGMissing tTTMissing "t8" "job-8"
  exact ⟨h1 rfl, h2 rfl, h7 rfl, h8 rfl, h13, h14⟩

/-- C9: the TikTok extractor returns exactly `min n 12` entries of
`recentVideos` for `n` visible post items; each entry defaults its
`link` to `""` and its `views` to `0` when the anchor or views node is
absent, and having fewer than 12 items never fails the job (extraction
is total and the all-ok job returns the record). -/
theorem claim_C9 :
    ∀ (t : TTPage) (now j : String) (i : ℕ)
      (h1 : i < (TikTok.extract t now).recentVideos.length)
      (h2 : i < t.postItems.length),
      (TikTok.extract t now).recentVideos.length = min t.postItems.length 12 ∧
      ((t.postItems.get ⟨i, h2⟩).href = none →
        ((TikTok.extract t now).recentVideos.get ⟨i, h1⟩).link = "") ∧
      ((t.postItems.get ⟨i, h2⟩).viewsText = none →
        ((TikTok.extract t now).recentVideos.get ⟨i, h1⟩).views = JSNum.val 0) ∧
      (scrape_tiktok_profile (mkOkEnv (TikTok.extract t now)) j).1 =
        Except.ok (TikTok.extract t now) := by
  intro t now j i h1 h2
  have hget : (TikTok.extract t now).recentVideos.get ⟨i, h1⟩ =
      { link := (t.postItems.get ⟨i, h2⟩).href.getD "",
        views := TikTok.parseCount (jsOr (t.postItems.get ⟨i, h2⟩).viewsText "0") } := by
    simp [TikTok.extract, List.get_eq_getElem, List.getElem_map, List.getElem_take]
  refine ⟨?_, ?_, ?_, rfl⟩
  · simp [TikTok.extract, Nat.min_comm]
  · intro h
    rw [hget]
    show (t.postItems.get ⟨i, h2⟩).href.getD "" = ""
    rw [h]
    rfl
  · intro h
    rw [hget]
    show TikTok.parseCount (jsOr (t.postItems.get ⟨i, h2⟩).viewsText "0") = JSNum.val 0
    rw [h]
    decide

/-- A TikTok page fixture with two post items, the first missing both
its anchor and its views node. -/
def tTT9 : TTPage :=
  { userTitle := some "charli", userBio := some "hi", avatarImg := some "https://a",
    followersEl := some ⟨some "155.2M", ""⟩, followingEl := some ⟨some "1,200", ""⟩,
    likesEl := some ⟨some "11.5B", ""⟩, verifiedBadge := true,
    postItems := [⟨none, none⟩, ⟨some "https://www.tiktok.com/v/2", some "1.2M"⟩] }

/-- C9 witness: the theorem applied at index 0 of a two-item page. -/
theorem claim_C9_witness :
    (TikTok.extract tTT9 "t9").recentVideos.length = min tTT9.postItems.length 12 ∧
      ((TikTok.extract tTT9 "t9").recentVideos.get ⟨0, by decide⟩).link = "" ∧
      ((TikTok.extract tTT9 "t9").recentVideos.get ⟨0, by decide⟩).views = JSNum.val 0 ∧
      (scrape_tiktok_profile (mkOkEnv (TikTok.extract tTT9 "t9")) "job-9").1 =
        Except.ok (TikTok.extract tTT9 "t9") := by
  obtain ⟨ha, hb, hc, hd⟩ := claim_C9 tTT9 "t9" "job-9" 0 (by decide) (by decide)
  exact ⟨ha, hb rfl, hc rfl, hd⟩

/-- C10: the `videos` field counts the post-item elements visible on
the page (it is not a parsed header total), so the invariant
`recentVideos.length = min videos 12` holds on every page. -/
theorem claim_C10 :
    ∀ (t : TTPage) (now : String),
      (TikTok.extract t now).videos = t.postItems.length ∧
      (TikTok.extract t now).recentVideos.length =
        min ((TikTok.extract t now).videos) 12 := by
  intro t now
  refine ⟨rfl, ?_⟩
  simp [TikTok.extract, Nat.min_comm]
